import Mathlib

/-!
Shallow embedding of `src/mermaid_diagram/static/src/syntax_highlighting_patch.js`.

The file patches a rich-text editor's syntax-highlighting component so that
code blocks tagged `mermaid` render as diagrams.  We model:

* the JS truthiness-based `a || b` fallback chains on strings,
* the theme adapter (`getOdooTheme`, `cssVar`, `getMermaidThemeConfig`),
* the module loader (`loadMermaid`) as a small state machine over the two
  module-level variables `mermaidModule` and `mermaidLoadingPromise`,
* the patched `CodeToolbar.setup` and its language registry,
* the patched `highlight` / `_renderMermaidDiagram` of the embedded
  syntax-highlighting component, as a step function on an explicit component
  state, parameterised by the values produced at the two `await` points
  (the loader result and the `mermaid.render` outcome).

JS strings that may be `undefined` are modelled as `Option String`; emptiness
and `undefined` are both falsy for `||`.  DOM presence of the diagram
container is modelled as the list of container element ids present in the
document, alongside the component's `_mermaidContainer` reference.
-/

namespace MermaidDiagram

/-- JS `a || b` for a possibly-undefined string `a`: `undefined` and `""` are
falsy and fall through to `b`. -/
def jsOrStr : Option String → String → String
  | some s, b => if s = "" then b else s
  | none, b => b

/-- JS truthiness of a possibly-undefined string. -/
def jsTruthy : Option String → Bool
  | some s => s != ""
  | none => false

/-- `l` starts with `p` (char-list model of JS `String.prototype.startsWith`). -/
def listStartsWith : List Char → List Char → Bool
  | _, [] => true
  | [], _ :: _ => false
  | a :: as, b :: bs => a == b && listStartsWith as bs

/-- JS `row.startsWith(pre)`. -/
def jsStartsWith (s p : String) : Bool := listStartsWith s.data p.data

/-- JS `s.trim()`: strip leading and trailing whitespace. -/
def jsTrim (s : String) : String :=
  ⟨((s.data.dropWhile Char.isWhitespace).reverse.dropWhile Char.isWhitespace).reverse⟩

/-- The segment of `l` strictly between the first and second `'='`
(or up to the end); this is JS `l.split('=')[1]` for a list containing
at least one `'='`, and `""` via the surrounding falsy fallback otherwise. -/
def segAfterFirstEq : List Char → List Char
  | [] => []
  | c :: rest => if c == '=' then rest.takeWhile (fun d => d != '=') else segAfterFirstEq rest

/-! ## Theme adapter -/

/-- Ambient document state read by the theme adapter:
`document.documentElement.dataset.colorScheme` and `document.cookie`
(the latter already split on the `"; "` cookie separator, i.e. the list of
`name=value` rows). -/
structure Document where
  colorScheme : Option String
  cookieRows : List String
deriving DecidableEq

/-- `document.cookie.split('; ').find(row => row.startsWith('color_scheme='))?.split('=')[1]`. -/
def cookieColorScheme (rows : List String) : Option String :=
  (rows.find? (fun row => jsStartsWith row "color_scheme=")).map
    (fun row => ⟨segAfterFirstEq row.data⟩)

/-- `getOdooTheme`: the dataset attribute, else the cookie value, else `"light"`. -/
def getOdooTheme (doc : Document) : String :=
  jsOrStr doc.colorScheme (jsOrStr (cookieColorScheme doc.cookieRows) "light")

/-- Computed styles of the document root: `name ↦ getPropertyValue(name)`
(the empty string for properties that are not set). -/
def Styles : Type := String → String

/-- `cssVar(name, fallback)`: the trimmed computed value if non-empty, else the fallback. -/
def cssVar (styles : Styles) (name fallback : String) : String :=
  let v := jsTrim (styles name)
  if v = "" then fallback else v

/-- The `themeVariables` object passed to `mermaid.initialize`. -/
structure ThemeVariables where
  primaryColor : String
  primaryTextColor : String
  primaryBorderColor : String
  lineColor : String
  secondaryColor : String
  tertiaryColor : String
  background : String
  mainBkg : String
  secondBkg : String
  border1 : String
  border2 : String
  arrowheadColor : String
  fontFamily : String
  fontSize : String
  textColor : String
  nodeTextColor : String
deriving DecidableEq

/-- The return value of `getMermaidThemeConfig`. -/
structure ThemeConfig where
  theme : String
  themeVariables : ThemeVariables
deriving DecidableEq

/-- `getMermaidThemeConfig`. -/
def getMermaidThemeConfig (doc : Document) (styles : Styles) : ThemeConfig :=
  let isDark := getOdooTheme doc = "dark"
  let primary := cssVar styles "--o-brand-primary" (if isDark then "#4a90a4" else "#714B67")
  let textColor := cssVar styles "--o-main-text-color" (if isDark then "#e5e7eb" else "#374151")
  let bgColor := cssVar styles "--o-view-background-color" (if isDark then "#374151" else "#fff")
  { theme := "base"
    themeVariables :=
      if isDark then
        { primaryColor := primary
          primaryTextColor := "#fff"
          primaryBorderColor := "#5a6d7a"
          lineColor := "#8b9aa5"
          secondaryColor := "#3d4f5f"
          tertiaryColor := "#2d3e4a"
          background := "transparent"
          mainBkg := bgColor
          secondBkg := "#2d3748"
          border1 := "#4b5563"
          border2 := "#6b7280"
          arrowheadColor := "#9ca3af"
          fontFamily := "inherit"
          fontSize := "14px"
          textColor := textColor
          nodeTextColor := "#f3f4f6" }
      else
        { primaryColor := primary
          primaryTextColor := "#fff"
          primaryBorderColor := "#5a3d52"
          lineColor := "#6b7280"
          secondaryColor := "#f3e8ee"
          tertiaryColor := "#faf5f8"
          background := "transparent"
          mainBkg := bgColor
          secondBkg := "#f9fafb"
          border1 := "#e5e7eb"
          border2 := "#d1d5db"
          arrowheadColor := "#374151"
          fontFamily := "inherit"
          fontSize := "14px"
          textColor := textColor
          nodeTextColor := "#1f2937" } }

/-! ## Module loader (`loadMermaid`)

The loader guards two module-level variables, `mermaidModule` and
`mermaidLoadingPromise`.  We model them in `LoaderState`, together with a
fetch counter (number of `import(MERMAID_CDN_URL)` started) and the theme
config that was passed to `mermaid.initialize` if initialization happened.
A call runs synchronously up to returning either the cached module or a
promise; the async body settles later (`loadMermaidResolve`) with one of
three outcomes: the dynamic import throws, the import succeeds but
`initialize` throws, or both succeed. -/

/-- Identity of a loaded module object (`module.default`). -/
structure Handle where
  id : Nat
deriving DecidableEq

/-- The module-level loader state. -/
structure LoaderState where
  /-- `mermaidModule` -/
  module : Option Handle
  /-- `mermaidLoadingPromise`, identified by a promise id when set -/
  loading : Option Nat
  /-- the config passed to `mermaid.initialize`, once initialization ran -/
  initConfig : Option ThemeConfig
  /-- number of network fetches (dynamic imports) started so far -/
  fetchCount : Nat
  /-- next fresh promise id -/
  nextPromiseId : Nat
deriving DecidableEq

/-- State before any load: both module-level variables are `null`. -/
def initialLoaderState : LoaderState :=
  { module := none, loading := none, initConfig := none, fetchCount := 0, nextPromiseId := 0 }

/-- What a synchronous `loadMermaid()` call hands back to its caller:
either the cached module (returned without suspension) or a promise. -/
inductive CallResult where
  | cached : Handle → CallResult
  | promise : Nat → CallResult
deriving DecidableEq

/-- The synchronous part of `loadMermaid`: return the cached module if set,
else the in-flight promise if set, else install a fresh promise and start
the fetch. -/
def loadMermaidCall (s : LoaderState) : CallResult × LoaderState :=
  match s.module with
  | some h => (.cached h, s)
  | none =>
    match s.loading with
    | some pid => (.promise pid, s)
    | none =>
      let pid := s.nextPromiseId
      (.promise pid,
        { s with loading := some pid, fetchCount := s.fetchCount + 1, nextPromiseId := pid + 1 })

/-- How the awaited part of a load attempt turns out. -/
inductive LoadOutcome where
  /-- `await import(...)` throws -/
  | fetchFail : LoadOutcome
  /-- the import succeeds yielding `module.default = h`, but `initialize` throws;
  `doc`/`styles` are the ambient theme state at that moment -/
  | initFail : Handle → Document → Styles → LoadOutcome
  /-- import and `initialize` both succeed -/
  | success : Handle → Document → Styles → LoadOutcome

/-- The value the in-flight promise settles with: the module handle on
success, or `null` (returned from the `catch` block) on failure. -/
inductive PromiseValue where
  | handle : Handle → PromiseValue
  | nullFailure : PromiseValue
deriving DecidableEq

/-- Result of the async body of `loadMermaid` settling. -/
structure ResolveResult where
  value : PromiseValue
  state : LoaderState
  /-- whether `console.error("Failed to load Mermaid:", e)` ran -/
  logged : Bool

/-- The async body of `loadMermaid`.  On success, `mermaidModule` is assigned
and then `initialize` runs with the theme config computed at that moment.
On an import failure the `catch` block logs, clears `mermaidLoadingPromise`
and returns `null`.  On an `initialize` failure the same `catch` block runs,
but `mermaidModule = module.default` was already assigned before the throw. -/
def loadMermaidResolve (s : LoaderState) : LoadOutcome → ResolveResult
  | .fetchFail =>
      { value := .nullFailure, state := { s with loading := none }, logged := true }
  | .initFail h _ _ =>
      { value := .nullFailure,
        state := { s with module := some h, loading := none }, logged := true }
  | .success h doc styles =>
      { value := .handle h,
        state :=
          { s with
            module := some h
            initConfig := some (getMermaidThemeConfig doc styles) },
        logged := false }

/-- Convert the settled promise value to what `await loadMermaid()` yields. -/
def pvToHandle : PromiseValue → Option Handle
  | .handle h => some h
  | .nullFailure => none

/-- One complete `await loadMermaid()` invocation run to completion: the
synchronous part, and — if it did not return the cached module — the
settling of the promise with outcome `o`. -/
def runLoadMermaid (s : LoaderState) (o : LoadOutcome) : Option Handle × LoaderState :=
  match loadMermaidCall s with
  | (.cached h, s1) => (some h, s1)
  | (.promise _, s1) =>
      let r := loadMermaidResolve s1 o
      (pvToHandle r.value, r.state)

/-! ## Language registry and the patched `CodeToolbar.setup` -/

/-- `MERMAID_LANGUAGES`: the static extended registry, in source order. -/
def MERMAID_LANGUAGES : List (String × String) :=
  [("plaintext", "Plain Text"),
   ("markdown", "Markdown"),
   ("mermaid", "Mermaid"),
   ("javascript", "Javascript"),
   ("typescript", "Typescript"),
   ("jsdoc", "JSDoc"),
   ("java", "Java"),
   ("python", "Python"),
   ("html", "HTML"),
   ("xml", "XML"),
   ("svg", "SVG"),
   ("json", "JSON"),
   ("css", "CSS"),
   ("sass", "SASS"),
   ("scss", "SCSS"),
   ("sql", "SQL"),
   ("diff", "Diff")]

/-- The toolbar state the patch touches: its `languages` mapping. -/
structure CodeToolbarState where
  languages : List (String × String)
deriving DecidableEq

/-- The patched `CodeToolbar.setup`: run the host's `super.setup()` (which
leaves the toolbar in some state `t`), then overwrite `this.languages` with
the extended registry. -/
def codeToolbarSetup (t : CodeToolbarState) : CodeToolbarState :=
  { t with languages := MERMAID_LANGUAGES }

/-! ## View controller (`highlight` / `_renderMermaidDiagram`)

The component state carries the inputs the two methods read
(`embeddedState`, `props`, `this.textarea?.value`) and the DOM-visible
outputs they write.  `this.textarea?.value` is `undefined` exactly when the
textarea element is missing, so a single `Option String` models both the
element's existence and its value.  Container elements of class
`o_mermaid_container` present in the document are modelled by their ids in
`domContainers`; `mermaidContainer` is the component's `_mermaidContainer`
reference. -/

/-- Component state. -/
structure CState where
  /-- `this.embeddedState?.languageId` -/
  embeddedLanguageId : Option String
  /-- `this.props?.languageId` -/
  propsLanguageId : Option String
  /-- `this.textarea?.value`; `none` iff the textarea element is missing -/
  textareaValue : Option String
  /-- `this.embeddedState?.value` -/
  embeddedValue : Option String
  /-- `this.props?.value` -/
  propsValue : Option String
  /-- whether `this.pre` exists -/
  preExists : Bool
  /-- whether `this.pre.parentNode` exists -/
  preParentExists : Bool
  /-- `this.pre.style.display` -/
  preDisplay : String
  /-- `this.textarea.style.display` -/
  textareaDisplay : String
  /-- `this.pre.textContent` -/
  preTextContent : String
  /-- ids of `o_mermaid_container` elements present in the document -/
  domContainers : List Nat
  /-- `this._mermaidContainer` (by element id), `null` when cleared -/
  mermaidContainer : Option Nat
  /-- the container's `style.display` -/
  containerDisplay : String
  /-- the container's `innerHTML` -/
  containerHTML : String
  /-- next fresh element id -/
  nextId : Nat
deriving DecidableEq

/-- `this.embeddedState?.languageId || this.props?.languageId || "plaintext"`. -/
def resolveLanguageId (c : CState) : String :=
  jsOrStr c.embeddedLanguageId (jsOrStr c.propsLanguageId "plaintext")

/-- `this.textarea?.value || this.embeddedState?.value || this.props?.value || ""`. -/
def resolveValue (c : CState) : String :=
  jsOrStr c.textareaValue (jsOrStr c.embeddedValue (jsOrStr c.propsValue ""))

/-- How the awaited `mermaid.render(id, trimmedValue)` call turns out:
the returned `svg` markup, or a thrown error whose `message` may be absent. -/
inductive RenderOutcome where
  | success : String → RenderOutcome
  | failure : Option String → RenderOutcome
deriving DecidableEq

/-- `"Failed to load Mermaid library"`. -/
def loadFailureMessage : String := "Failed to load Mermaid library"

/-- The placeholder markup shown for blank content. -/
def emptyPlaceholderHTML : String :=
  "<div style=\"color: #888; font-style: italic;\">Enter Mermaid code to render diagram</div>"

/-- The error markup up to the interpolated message. -/
def errHead : String :=
  "<div style=\"color: #dc3545; padding: 0.5rem;\">\n                <strong>Mermaid syntax error:</strong><br>\n                <small>"

/-- The error markup after the interpolated message. -/
def errTail : String := "</small>\n            </div>"

/-- The inline error markup with `e.message || 'Invalid syntax'` interpolated. -/
def mermaidErrorHTML (msg : String) : String := errHead ++ msg ++ errTail

/-- Result of one `_renderMermaidDiagram` invocation run to completion. -/
structure RMResult where
  comp : CState
  /-- whether `loadMermaid()` was called -/
  loaderInvoked : Bool
  /-- whether `mermaid.render` was called -/
  rendererInvoked : Bool

/-- `_renderMermaidDiagram`, parameterised by the value the awaited
`loadMermaid()` yields (`mh`) and, if reached, the outcome of the awaited
`mermaid.render` call (`renv`).  Mirrors the source order: load, bail out on
`null`, resolve the content, lazily create the container (inserted after
`this.pre` when it has a parent), hide `pre`/`textarea` and show the
container, then either show the placeholder (blank content) or render. -/
def renderMermaidDiagram (c : CState) (mh : Option Handle) (renv : RenderOutcome) : RMResult :=
  match mh with
  | none =>
      let c1 := if c.preExists then { c with preTextContent := loadFailureMessage } else c
      { comp := c1, loaderInvoked := true, rendererInvoked := false }
  | some _ =>
      let value := resolveValue c
      let trimmedValue := jsTrim value
      let c1 :=
        match c.mermaidContainer with
        | some _ => c
        | none =>
            let cid := c.nextId
            let cMade :=
              { c with
                mermaidContainer := some cid
                nextId := cid + 1
                containerDisplay := "flex"
                containerHTML := "" }
            if cMade.preExists && cMade.preParentExists then
              { cMade with domContainers := cMade.domContainers ++ [cid] }
            else cMade
      let c2 := if c1.preExists then { c1 with preDisplay := "none" } else c1
      let c3 := if c2.textareaValue.isSome then { c2 with textareaDisplay := "none" } else c2
      let c4 := { c3 with containerDisplay := "flex" }
      if trimmedValue = "" then
        { comp := { c4 with containerHTML := emptyPlaceholderHTML },
          loaderInvoked := true, rendererInvoked := false }
      else
        match renv with
        | .success svg =>
            { comp := { c4 with containerHTML := svg },
              loaderInvoked := true, rendererInvoked := true }
        | .failure msg =>
            { comp := { c4 with containerHTML := mermaidErrorHTML (jsOrStr msg "Invalid syntax") },
              loaderInvoked := true, rendererInvoked := true }

/-- Result of one patched `highlight` call. -/
structure HLResult where
  comp : CState
  loaderInvoked : Bool
  rendererInvoked : Bool
  /-- `some focus` iff `super.highlight(focus)` was called -/
  superFocus : Option Bool

/-- The patched `highlight(focus)`: resolve the language; for `"mermaid"`
run `_renderMermaidDiagram` and return without calling `super`; otherwise
remove the container if present (clearing the reference and restoring the
`pre`/`textarea` display), then delegate to `super.highlight(focus)`. -/
def highlight (c : CState) (focus : Bool) (mh : Option Handle) (renv : RenderOutcome) : HLResult :=
  let languageId := resolveLanguageId c
  if languageId = "mermaid" then
    let r := renderMermaidDiagram c mh renv
    { comp := r.comp, loaderInvoked := r.loaderInvoked,
      rendererInvoked := r.rendererInvoked, superFocus := none }
  else
    let c1 :=
      match c.mermaidContainer with
      | none => c
      | some cid =>
          let cRm :=
            { c with
              domContainers := c.domContainers.filter (fun j => j != cid)
              mermaidContainer := none }
          let cRm2 := if cRm.preExists then { cRm with preDisplay := "" } else cRm
          if cRm2.textareaValue.isSome then { cRm2 with textareaDisplay := "" } else cRm2
    { comp := c1, loaderInvoked := false, rendererInvoked := false, superFocus := some focus }

/-- At most one `o_mermaid_container` element exists in the document, and any
that does is the one the component's `_mermaidContainer` reference points to. -/
def containerInvariant (c : CState) : Prop :=
  c.domContainers.length ≤ 1 ∧ ∀ i ∈ c.domContainers, c.mermaidContainer = some i

/-- One full diagram-render invocation against the shared loader state:
`await loadMermaid()` runs to completion with outcome `o`, then the rest of
`_renderMermaidDiagram`.  The third component is the theme config the
rendering library holds while this render runs (the one it was initialized
with, if any). -/
def diagramRender (c : CState) (ls : LoaderState) (o : LoadOutcome) (renv : RenderOutcome) :
    RMResult × LoaderState × Option ThemeConfig :=
  let p := runLoadMermaid ls o
  (renderMermaidDiagram c p.1 renv, p.2, p.2.initConfig)

/-! ## Concrete fixtures used in counterexamples and witnesses -/

/-- Ambient state with the root color-scheme attribute set to `"light"`. -/
def docLight : Document := { colorScheme := some "light", cookieRows := [] }

/-- Ambient state with the root color-scheme attribute set to `"dark"`. -/
def docDark : Document := { colorScheme := some "dark", cookieRows := [] }

/-- Ambient state with no root attribute and a dark `color_scheme` cookie. -/
def docCookieDark : Document := { colorScheme := none, cookieRows := ["color_scheme=dark"] }

/-- Computed styles with no CSS custom property set. -/
def noStyles : Styles := fun _ => ""

/-- Computed styles with only the brand custom property set
(with surrounding whitespace, to exercise the trim). -/
def brandStyles : Styles := fun n => if n = "--o-brand-primary" then " #123456 " else ""

/-- A mermaid-tagged block whose textarea holds non-blank content. -/
def cNonEmpty : CState :=
  { embeddedLanguageId := some "mermaid", propsLanguageId := none,
    textareaValue := some "graph TD", embeddedValue := none, propsValue := none,
    preExists := true, preParentExists := true,
    preDisplay := "", textareaDisplay := "", preTextContent := "",
    domContainers := [], mermaidContainer := none,
    containerDisplay := "", containerHTML := "", nextId := 0 }

/-- A mermaid-tagged block whose textarea holds only whitespace. -/
def cEmptyVal : CState :=
  { embeddedLanguageId := some "mermaid", propsLanguageId := none,
    textareaValue := some "   ", embeddedValue := none, propsValue := none,
    preExists := true, preParentExists := true,
    preDisplay := "", textareaDisplay := "", preTextContent := "",
    domContainers := [], mermaidContainer := none,
    containerDisplay := "", containerHTML := "", nextId := 0 }

/-- A plaintext-tagged block that still owns a diagram container
(the state right after switching the language away from mermaid). -/
def cPlainWithContainer : CState :=
  { embeddedLanguageId := some "plaintext", propsLanguageId := none,
    textareaValue := some "hello", embeddedValue := none, propsValue := none,
    preExists := true, preParentExists := true,
    preDisplay := "none", textareaDisplay := "none", preTextContent := "",
    domContainers := [5], mermaidContainer := some 5,
    containerDisplay := "flex", containerHTML := "<svg/>", nextId := 6 }

/-- Loader state after one completed successful load performed while the
ambient theme was `docLight`. -/
def loadedStateLight : LoaderState :=
  (loadMermaidResolve (loadMermaidCall initialLoaderState).2
    (.success ⟨1⟩ docLight noStyles)).state

/-- Loader state with a cached module handle. -/
def sCached : LoaderState :=
  { module := some ⟨3⟩, loading := some 0, initConfig := none, fetchCount := 1, nextPromiseId := 1 }

/-- Loader state with a load in flight and nothing cached yet. -/
def sInFlight : LoaderState :=
  { module := none, loading := some 0, initConfig := none, fetchCount := 1, nextPromiseId := 1 }

/-! ## Helper lemmas -/

/-- `jsOrStr` returns a truthy first argument. -/
theorem jsOrStr_truthy (s : String) (hs : s ≠ "") (b : String) : jsOrStr (some s) b = s := by
  simp [jsOrStr, hs]

/-- `jsOrStr` falls through a falsy first argument. -/
theorem jsOrStr_falsy (a : Option String) (ha : jsTruthy a = false) (b : String) :
    jsOrStr a b = b := by
  cases a with
  | none => simp [jsOrStr]
  | some s =>
      simp [jsTruthy] at ha
      simp [jsOrStr, ha]

/-- The loader-failure branch of `_renderMermaidDiagram` leaves the container
fields untouched. -/
theorem rmd_mermaidContainer_none (c : CState) (renv : RenderOutcome) :
    (renderMermaidDiagram c none renv).comp.mermaidContainer = c.mermaidContainer ∧
    (renderMermaidDiagram c none renv).comp.domContainers = c.domContainers := by
  by_cases hp : c.preExists <;> simp [renderMermaidDiagram, hp]

/-- Container reference after a diagram render with the library available:
an existing container is reused, otherwise a fresh one is referenced. -/
theorem rmd_mermaidContainer_some (c : CState) (h : Handle) (renv : RenderOutcome) :
    (renderMermaidDiagram c (some h) renv).comp.mermaidContainer
      = (match c.mermaidContainer with
         | some cid => some cid
         | none => some c.nextId) := by
  cases hc : c.mermaidContainer <;>
    by_cases hp : c.preExists <;>
      by_cases hpp : c.preParentExists <;>
        by_cases ht2 : c.textareaValue.isSome <;>
          by_cases ht : jsTrim (resolveValue c) = "" <;>
            cases renv <;>
              simp [renderMermaidDiagram, hc, hp, hpp, ht2, ht]

/-- Document containers after a diagram render with the library available:
unchanged when the container is reused, extended by the fresh container when
one is created and `this.pre` has a parent. -/
theorem rmd_domContainers_some (c : CState) (h : Handle) (renv : RenderOutcome) :
    (renderMermaidDiagram c (some h) renv).comp.domContainers
      = (match c.mermaidContainer with
         | some _ => c.domContainers
         | none =>
             if c.preExists && c.preParentExists then c.domContainers ++ [c.nextId]
             else c.domContainers) := by
  cases hc : c.mermaidContainer <;>
    by_cases hp : c.preExists <;>
      by_cases hpp : c.preParentExists <;>
        by_cases ht2 : c.textareaValue.isSome <;>
          by_cases ht : jsTrim (resolveValue c) = "" <;>
            cases renv <;>
              simp [renderMermaidDiagram, hc, hp, hpp, ht2, ht]

/-- If the component holds no container reference, the invariant forces the
document to hold no container either. -/
theorem containers_nil_of_ref_none (c : CState) (hinv : containerInvariant c)
    (hc : c.mermaidContainer = none) : c.domContainers = [] := by
  rcases hinv with ⟨-, hall⟩
  cases hd : c.domContainers with
  | nil => rfl
  | cons a l =>
      have h2 := hall a (by rw [hd]; exact List.mem_cons_self a l)
      rw [hc] at h2
      cases h2

/-- Removing the referenced container empties the document when every
document container is the referenced one. -/
theorem filter_ne_ref_nil (l : List Nat) (cid : Nat) (h : ∀ i ∈ l, i = cid) :
    l.filter (fun j => j != cid) = [] := by
  rw [List.filter_eq_nil_iff]
  intro a ha
  simp [h a ha]

/-! ## Claim theorems -/

/-- Claim C1, counterexample: the theme config is NOT recomputed on every
render.  After the library was loaded and initialized while the ambient
theme was light, a later diagram-render invocation (here performed while the
ambient theme is dark) still runs against the config derived from the
load-time light ambient state: the config the library holds equals the
light-derived config and differs from the config the current dark ambient
state would yield.  (The outcome argument of `diagramRender` is irrelevant
here: the module is cached, so no new load settles.) -/
theorem theme_config_stale_after_ambient_change :
    ((diagramRender cNonEmpty loadedStateLight LoadOutcome.fetchFail
        (RenderOutcome.success "SVG")).2.2
      = some (getMermaidThemeConfig docLight noStyles)) ∧
    ((diagramRender cNonEmpty loadedStateLight LoadOutcome.fetchFail
        (RenderOutcome.success "SVG")).2.2
      ≠ some (getMermaidThemeConfig docDark noStyles)) := by decide

/-- Claim C1, amended: the theme configuration is computed once, when the
library is successfully initialized, from the ambient theme state at that
moment; the synchronous part of a loader call and failed loads never change
it, and once the module is cached a diagram render leaves the loader state —
hence the initialization config — unchanged. -/
theorem theme_config_computed_once_at_init (ls : LoaderState) (h hm : Handle)
    (doc : Document) (styles : Styles) (o : LoadOutcome) (c : CState)
    (renv : RenderOutcome) (hl : ls.module = some hm) :
    (loadMermaidResolve ls (.success h doc styles)).state.initConfig
      = some (getMermaidThemeConfig doc styles) ∧
    (loadMermaidCall ls).2.initConfig = ls.initConfig ∧
    (loadMermaidResolve ls .fetchFail).state.initConfig = ls.initConfig ∧
    (loadMermaidResolve ls (.initFail h doc styles)).state.initConfig = ls.initConfig ∧
    (diagramRender c ls o renv).2.1 = ls ∧
    (diagramRender c ls o renv).2.2 = ls.initConfig := by
  refine ⟨rfl, ?_, rfl, rfl, ?_, ?_⟩
  · unfold loadMermaidCall
    cases hmm : ls.module
    · cases hll : ls.loading <;> simp
    · simp
  · simp [diagramRender, runLoadMermaid, loadMermaidCall, hl]
  · simp [diagramRender, runLoadMermaid, loadMermaidCall, hl]

/-- Claim C1, witness for the amended theorem: with the light-loaded state,
a further diagram render under any outcome leaves the loader state intact. -/
theorem theme_config_computed_once_at_init_witness :
    (diagramRender cNonEmpty loadedStateLight LoadOutcome.fetchFail
      (RenderOutcome.success "SVG")).2.1 = loadedStateLight :=
  (theme_config_computed_once_at_init loadedStateLight ⟨1⟩ ⟨1⟩ docDark noStyles
    LoadOutcome.fetchFail cNonEmpty (RenderOutcome.success "SVG") rfl).2.2.2.2.1

/-- Claim C2 (code bug, evaluated at the failing input): on a first load
whose dynamic import succeeds but whose `initialize` call throws, the catch
block logs, clears the in-flight marker and returns the `null` failure — but
`mermaidModule` was already assigned before the throw, so the next loader
call returns that partially-initialized handle synchronously instead of
performing a fresh load attempt (the fetch count stays at 1). -/
theorem init_failure_returns_stale_handle_next_call :
    (let s1 := (loadMermaidCall initialLoaderState).2
     let r := loadMermaidResolve s1 (.initFail ⟨7⟩ docLight noStyles)
     r.logged = true ∧ r.value = PromiseValue.nullFailure ∧ r.state.loading = none ∧
     r.state.module = some ⟨7⟩ ∧
     loadMermaidCall r.state = (CallResult.cached ⟨7⟩, r.state) ∧
     (loadMermaidCall r.state).2.fetchCount = 1) := by decide

/-- Claim C3: once a load completed successfully the cached handle is
returned synchronously with the state (hence the fetch count) unchanged;
while a load is in flight every call returns that same in-flight promise
with the state unchanged; and two calls from the initial state return the
same promise with exactly one fetch started, so both callers receive the
value that single promise settles with. -/
theorem loader_caches_and_deduplicates :
    (∀ s h, s.module = some h → loadMermaidCall s = (CallResult.cached h, s)) ∧
    (∀ s pid, s.module = none → s.loading = some pid →
       loadMermaidCall s = (CallResult.promise pid, s)) ∧
    ((loadMermaidCall initialLoaderState).1 = CallResult.promise 0 ∧
     (loadMermaidCall initialLoaderState).2.fetchCount = 1 ∧
     loadMermaidCall (loadMermaidCall initialLoaderState).2
       = (CallResult.promise 0, (loadMermaidCall initialLoaderState).2)) := by
  refine ⟨?_, ?_, by decide⟩
  · intro s h hm
    simp [loadMermaidCall, hm]
  · intro s pid hm hl
    simp [loadMermaidCall, hm, hl]

/-- Claim C3, witness: the cached branch at a loaded state, and the
in-flight branch at a pending state. -/
theorem loader_caches_and_deduplicates_witness :
    loadMermaidCall sCached = (CallResult.cached ⟨3⟩, sCached) ∧
    loadMermaidCall sInFlight = (CallResult.promise 0, sInFlight) :=
  ⟨loader_caches_and_deduplicates.1 sCached ⟨3⟩ rfl,
   loader_caches_and_deduplicates.2.1 sInFlight 0 rfl rfl⟩

/-- Claim C4, counterexample: the dependency loader is NOT invoked only in
the non-empty branch.  On a diagram block whose content trims to empty, the
render call still invokes `loadMermaid()` (it is the first statement of
`_renderMermaidDiagram`, before the content check), while the renderer is
indeed never called. -/
theorem loader_invoked_on_empty_content :
    resolveLanguageId cEmptyVal = "mermaid" ∧
    jsTrim (resolveValue cEmptyVal) = "" ∧
    (highlight cEmptyVal false (some ⟨0⟩) (RenderOutcome.success "SVG")).loaderInvoked = true ∧
    (highlight cEmptyVal false (some ⟨0⟩) (RenderOutcome.success "SVG")).rendererInvoked
      = false := by decide

/-- Claim C4, amended: on a diagram-language highlight call whose content
trims to empty, when the loader yields a module the view shows the
empty-state placeholder and never calls the renderer; the dependency loader
itself is invoked on every diagram render, in both branches (before the
content check). -/
theorem empty_content_placeholder_no_renderer (c : CState) (focus : Bool) (h : Handle)
    (renv : RenderOutcome)
    (hlang : resolveLanguageId c = "mermaid")
    (hempty : jsTrim (resolveValue c) = "") :
    (highlight c focus (some h) renv).comp.containerHTML = emptyPlaceholderHTML ∧
    (highlight c focus (some h) renv).rendererInvoked = false ∧
    (highlight c focus (some h) renv).loaderInvoked = true ∧
    (∀ mh renv2, (highlight c focus mh renv2).loaderInvoked = true) := by
  refine ⟨?_, ?_, ?_, ?_⟩
  · cases hc : c.mermaidContainer <;>
      by_cases hp : c.preExists <;>
        by_cases hpp : c.preParentExists <;>
          by_cases ht : c.textareaValue.isSome <;>
            simp [highlight, hlang, renderMermaidDiagram, hc, hempty, hp, hpp, ht]
  · cases hc : c.mermaidContainer <;>
      by_cases hp : c.preExists <;>
        by_cases hpp : c.preParentExists <;>
          by_cases ht : c.textareaValue.isSome <;>
            simp [highlight, hlang, renderMermaidDiagram, hc, hempty, hp, hpp, ht]
  · cases hc : c.mermaidContainer <;>
      by_cases hp : c.preExists <;>
        by_cases hpp : c.preParentExists <;>
          by_cases ht : c.textareaValue.isSome <;>
            simp [highlight, hlang, renderMermaidDiagram, hc, hempty, hp, hpp, ht]
  · intro mh renv2
    cases mh with
    | none => by_cases hp : c.preExists <;> simp [highlight, hlang, renderMermaidDiagram, hp]
    | some h2 =>
        cases hc : c.mermaidContainer <;>
          by_cases hp : c.preExists <;>
            by_cases hpp : c.preParentExists <;>
              by_cases ht : c.textareaValue.isSome <;>
                by_cases he : jsTrim (resolveValue c) = "" <;>
                  cases renv2 <;>
                    simp [highlight, hlang, renderMermaidDiagram, hc, hp, hpp, ht, he]

/-- Claim C4, witness for the amended theorem: the whitespace-only block
shows the placeholder. -/
theorem empty_content_placeholder_no_renderer_witness :
    (highlight cEmptyVal false (some ⟨0⟩) (RenderOutcome.success "SVG")).comp.containerHTML
      = emptyPlaceholderHTML :=
  (empty_content_placeholder_no_renderer cEmptyVal false ⟨0⟩ (RenderOutcome.success "SVG")
    (by decide) (by decide)).1

/-- Claim C5: on a highlight call for a non-diagram language with a render
container present, the container is removed from the document and the
reference cleared, the `pre` and textarea displays are restored, the call
delegates to `super.highlight` with the same focus flag, and the resolved
language it delegates for is unchanged. -/
theorem nonmermaid_removes_container_and_delegates (c : CState) (focus : Bool)
    (mh : Option Handle) (renv : RenderOutcome) (cid : Nat)
    (hlang : resolveLanguageId c ≠ "mermaid")
    (hc : c.mermaidContainer = some cid)
    (hinv : containerInvariant c) :
    (highlight c focus mh renv).comp.mermaidContainer = none ∧
    (highlight c focus mh renv).comp.domContainers = [] ∧
    (c.preExists = true → (highlight c focus mh renv).comp.preDisplay = "") ∧
    (c.textareaValue.isSome = true → (highlight c focus mh renv).comp.textareaDisplay = "") ∧
    (highlight c focus mh renv).superFocus = some focus ∧
    resolveLanguageId (highlight c focus mh renv).comp = resolveLanguageId c := by
  have hfil : c.domContainers.filter (fun j => j != cid) = [] := by
    refine filter_ne_ref_nil _ _ (fun i hi => ?_)
    have h2 := hinv.2 i hi
    rw [hc] at h2
    exact (Option.some_inj.mp h2).symm
  have hlang2 : jsOrStr c.embeddedLanguageId (jsOrStr c.propsLanguageId "plaintext")
      ≠ "mermaid" := hlang
  by_cases hp : c.preExists <;>
    by_cases ht : c.textareaValue.isSome <;>
      simp [highlight, resolveLanguageId, hlang2, hc, hfil, hp, ht]

/-- Claim C5, witness: switching the plaintext block with a leftover
container restores everything and delegates. -/
theorem nonmermaid_removes_container_and_delegates_witness :
    (highlight cPlainWithContainer true none (RenderOutcome.success "SVG")).comp.mermaidContainer
      = none :=
  (nonmermaid_removes_container_and_delegates cPlainWithContainer true none
    (RenderOutcome.success "SVG") 5 (by decide) (by decide) (by constructor <;> decide)).1

/-- Claim C6: when the render call fails on a diagram block with non-blank
content, the container's content is replaced by the inline error markup with
the failure's message (or the fallback `"Invalid syntax"` when it carries
none) interpolated between the fixed head and tail, the `pre` and textarea
elements remain hidden and the container remains shown — the component stays
in diagram mode and `super.highlight` is not called. -/
theorem render_failure_shows_inline_error_stays_diagram (c : CState) (focus : Bool)
    (h : Handle) (m : Option String)
    (hlang : resolveLanguageId c = "mermaid")
    (hne : jsTrim (resolveValue c) ≠ "")
    (hpre : c.preExists = true)
    (hta : c.textareaValue.isSome = true) :
    (highlight c focus (some h) (.failure m)).comp.containerHTML
      = errHead ++ jsOrStr m "Invalid syntax" ++ errTail ∧
    (highlight c focus (some h) (.failure m)).comp.preDisplay = "none" ∧
    (highlight c focus (some h) (.failure m)).comp.textareaDisplay = "none" ∧
    (highlight c focus (some h) (.failure m)).comp.containerDisplay = "flex" ∧
    (highlight c focus (some h) (.failure m)).superFocus = none := by
  cases hc : c.mermaidContainer <;>
    by_cases hpp : c.preParentExists <;>
      simp [highlight, hlang, renderMermaidDiagram, hc, hne, hpre, hpp, hta,
        mermaidErrorHTML, String.append_assoc]

/-- Claim C6, witness: a failing render with message `"Parse error"` on the
non-blank block. -/
theorem render_failure_shows_inline_error_stays_diagram_witness :
    (highlight cNonEmpty false (some ⟨0⟩)
        (RenderOutcome.failure (some "Parse error"))).comp.containerHTML
      = errHead ++ "Parse error" ++ errTail :=
  (render_failure_shows_inline_error_stays_diagram cNonEmpty false ⟨0⟩ (some "Parse error")
    (by decide) (by decide) (by decide) (by decide)).1

/-- Claim C7: dark/light mode comes from the root data attribute, else the
`color_scheme` cookie, else defaults to light; each of the three theme-driven
variables takes the trimmed computed CSS custom property whenever it is
non-empty, regardless of mode, and otherwise the hard-coded default of the
current mode (dark defaults when the dark signal is present). -/
theorem theme_mode_and_variable_derivation (doc : Document) (styles : Styles) :
    (∀ s, doc.colorScheme = some s → s ≠ "" → getOdooTheme doc = s) ∧
    (jsTruthy doc.colorScheme = false →
      ∀ s, cookieColorScheme doc.cookieRows = some s → s ≠ "" → getOdooTheme doc = s) ∧
    (jsTruthy doc.colorScheme = false → jsTruthy (cookieColorScheme doc.cookieRows) = false →
      getOdooTheme doc = "light") ∧
    (jsTrim (styles "--o-brand-primary") ≠ "" →
      (getMermaidThemeConfig doc styles).themeVariables.primaryColor
        = jsTrim (styles "--o-brand-primary")) ∧
    (jsTrim (styles "--o-main-text-color") ≠ "" →
      (getMermaidThemeConfig doc styles).themeVariables.textColor
        = jsTrim (styles "--o-main-text-color")) ∧
    (jsTrim (styles "--o-view-background-color") ≠ "" →
      (getMermaidThemeConfig doc styles).themeVariables.mainBkg
        = jsTrim (styles "--o-view-background-color")) ∧
    (getOdooTheme doc = "dark" → jsTrim (styles "--o-brand-primary") = "" →
      (getMermaidThemeConfig doc styles).themeVariables.primaryColor = "#4a90a4") ∧
    (getOdooTheme doc ≠ "dark" → jsTrim (styles "--o-brand-primary") = "" →
      (getMermaidThemeConfig doc styles).themeVariables.primaryColor = "#714B67") ∧
    (getOdooTheme doc = "dark" → jsTrim (styles "--o-main-text-color") = "" →
      (getMermaidThemeConfig doc styles).themeVariables.textColor = "#e5e7eb") ∧
    (getOdooTheme doc ≠ "dark" → jsTrim (styles "--o-main-text-color") = "" →
      (getMermaidThemeConfig doc styles).themeVariables.textColor = "#374151") ∧
    (getOdooTheme doc = "dark" → jsTrim (styles "--o-view-background-color") = "" →
      (getMermaidThemeConfig doc styles).themeVariables.mainBkg = "#374151") ∧
    (getOdooTheme doc ≠ "dark" → jsTrim (styles "--o-view-background-color") = "" →
      (getMermaidThemeConfig doc styles).themeVariables.mainBkg = "#fff") := by
  refine ⟨?_, ?_, ?_, ?_, ?_, ?_, ?_, ?_, ?_, ?_, ?_, ?_⟩
  · intro s hs hne
    rw [getOdooTheme, hs, jsOrStr_truthy s hne]
  · intro hf s hs hne
    rw [getOdooTheme, jsOrStr_falsy _ hf, hs, jsOrStr_truthy s hne]
  · intro hf hf2
    rw [getOdooTheme, jsOrStr_falsy _ hf, jsOrStr_falsy _ hf2]
  · intro hne
    by_cases hd : getOdooTheme doc = "dark" <;>
      simp [getMermaidThemeConfig, cssVar, hd, hne]
  · intro hne
    by_cases hd : getOdooTheme doc = "dark" <;>
      simp [getMermaidThemeConfig, cssVar, hd, hne]
  · intro hne
    by_cases hd : getOdooTheme doc = "dark" <;>
      simp [getMermaidThemeConfig, cssVar, hd, hne]
  · intro hd he
    simp [getMermaidThemeConfig, cssVar, hd, he]
  · intro hd he
    simp [getMermaidThemeConfig, cssVar, hd, he]
  · intro hd he
    simp [getMermaidThemeConfig, cssVar, hd, he]
  · intro hd he
    simp [getMermaidThemeConfig, cssVar, hd, he]
  · intro hd he
    simp [getMermaidThemeConfig, cssVar, hd, he]
  · intro hd he
    simp [getMermaidThemeConfig, cssVar, hd, he]

/-- Claim C7, witness: the cookie decides the mode when the attribute is
absent; the dark default applies with no CSS variables; an explicitly set
CSS variable overrides the default in light mode. -/
theorem theme_mode_and_variable_derivation_witness :
    getOdooTheme docCookieDark = "dark" ∧
    (getMermaidThemeConfig docDark noStyles).themeVariables.primaryColor = "#4a90a4" ∧
    (getMermaidThemeConfig docLight brandStyles).themeVariables.primaryColor = "#123456" :=
  ⟨(theme_mode_and_variable_derivation docCookieDark noStyles).2.1 (by decide) "dark"
      (by decide) (by decide),
   (theme_mode_and_variable_derivation docDark noStyles).2.2.2.2.2.2.1 (by decide) (by decide),
   (theme_mode_and_variable_derivation docLight brandStyles).2.2.2.1 (by decide)⟩

/-- Claim C8: every highlight call preserves the render-target invariant —
at most one container element exists in the document and any that does is
the referenced one; moreover switching away from the diagram language leaves
no container and no reference, while a diagram render with the library
available ends with a referenced container, reusing the existing one when
present. -/
theorem at_most_one_container_invariant (c : CState) (focus : Bool) (mh : Option Handle)
    (renv : RenderOutcome) (hinv : containerInvariant c) :
    containerInvariant (highlight c focus mh renv).comp ∧
    (resolveLanguageId c ≠ "mermaid" →
      (highlight c focus mh renv).comp.mermaidContainer = none ∧
      (highlight c focus mh renv).comp.domContainers = []) ∧
    (resolveLanguageId c = "mermaid" → mh.isSome = true →
      (highlight c focus mh renv).comp.mermaidContainer.isSome = true ∧
      (∀ cid, c.mermaidContainer = some cid →
        (highlight c focus mh renv).comp.mermaidContainer = some cid)) := by
  by_cases hl : resolveLanguageId c = "mermaid"
  · refine ⟨?_, fun hn => absurd hl hn, fun _ hm => ?_⟩
    · cases mh with
      | none =>
          have hfields := rmd_mermaidContainer_none c renv
          simp only [highlight, hl, if_pos]
          constructor
          · rw [hfields.2]; exact hinv.1
          · intro i hi
            rw [hfields.2] at hi
            rw [hfields.1]
            exact hinv.2 i hi
      | some h =>
          have h1 := rmd_mermaidContainer_some c h renv
          have h2 := rmd_domContainers_some c h renv
          simp only [highlight, hl, if_pos]
          cases hc : c.mermaidContainer with
          | some cid =>
              rw [hc] at h1 h2
              simp only at h1 h2
              constructor
              · rw [h2]; exact hinv.1
              · intro i hi
                rw [h2] at hi
                rw [h1, ← hc]
                exact hinv.2 i hi
          | none =>
              have hnil := containers_nil_of_ref_none c hinv hc
              rw [hc] at h1 h2
              simp only at h1 h2
              rw [hnil] at h2
              constructor
              · rw [h2]
                by_cases hp : c.preExists && c.preParentExists <;> simp [hp]
              · intro i hi
                rw [h2] at hi
                rw [h1]
                by_cases hp : c.preExists && c.preParentExists
                · rw [if_pos hp] at hi
                  simp at hi
                  rw [hi]
                · rw [if_neg hp] at hi
                  cases hi
    · cases mh with
      | none => cases hm
      | some h =>
          have h1 := rmd_mermaidContainer_some c h renv
          constructor
          · simp only [highlight, hl, if_pos, h1]
            cases hc : c.mermaidContainer <;> simp
          · intro cid hc
            simp only [highlight, hl, if_pos, h1, hc]
  · refine ⟨?_, fun _ => ?_, fun hm => absurd hm hl⟩
    · cases hc : c.mermaidContainer with
      | none =>
          simp only [highlight, if_neg hl, hc]
          exact hinv
      | some cid =>
          have hfil : c.domContainers.filter (fun j => j != cid) = [] := by
            refine filter_ne_ref_nil _ _ (fun i hi => ?_)
            have h2 := hinv.2 i hi
            rw [hc] at h2
            exact (Option.some_inj.mp h2).symm
          by_cases hp : c.preExists <;>
            by_cases ht : c.textareaValue.isSome <;>
              simp [highlight, if_neg hl, hc, hfil, hp, ht, containerInvariant]
    · cases hc : c.mermaidContainer with
      | none =>
          have hnil := containers_nil_of_ref_none c hinv hc
          simp [highlight, if_neg hl, hc, hnil]
      | some cid =>
          have hfil : c.domContainers.filter (fun j => j != cid) = [] := by
            refine filter_ne_ref_nil _ _ (fun i hi => ?_)
            have h2 := hinv.2 i hi
            rw [hc] at h2
            exact (Option.some_inj.mp h2).symm
          by_cases hp : c.preExists <;>
            by_cases ht : c.textareaValue.isSome <;>
              simp [highlight, if_neg hl, hc, hfil, hp, ht]

/-- Claim C8, witness: a first diagram render on the fresh block keeps the
invariant. -/
theorem at_most_one_container_invariant_witness :
    containerInvariant
      (highlight cNonEmpty false (some ⟨0⟩) (RenderOutcome.success "SVG")).comp :=
  (at_most_one_container_invariant cNonEmpty false (some ⟨0⟩) (RenderOutcome.success "SVG")
    (by constructor <;> decide)).1

/-- Claim C9: after the patched toolbar setup the languages mapping equals
the static extended registry, which contains the mermaid entry and has no
duplicate identifiers. -/
theorem toolbar_language_registry_static (t : CodeToolbarState) :
    (codeToolbarSetup t).languages = MERMAID_LANGUAGES ∧
    ("mermaid", "Mermaid") ∈ MERMAID_LANGUAGES ∧
    (MERMAID_LANGUAGES.map Prod.fst).Nodup :=
  ⟨rfl, by decide, by decide⟩

/-- Claim C10: the language id is resolved as the embedded state's id when
truthy, else the props' id when truthy, else `"plaintext"`; and the diagram
content is the textarea's value when truthy (an empty textarea string falls
through), else the embedded state's value when truthy, else the props'
value when truthy, else `""`. -/
theorem input_resolution_precedence (c : CState) :
    (∀ s, c.embeddedLanguageId = some s → s ≠ "" → resolveLanguageId c = s) ∧
    (jsTruthy c.embeddedLanguageId = false →
      ∀ s, c.propsLanguageId = some s → s ≠ "" → resolveLanguageId c = s) ∧
    (jsTruthy c.embeddedLanguageId = false → jsTruthy c.propsLanguageId = false →
      resolveLanguageId c = "plaintext") ∧
    (∀ s, c.textareaValue = some s → s ≠ "" → resolveValue c = s) ∧
    (jsTruthy c.textareaValue = false →
      ∀ s, c.embeddedValue = some s → s ≠ "" → resolveValue c = s) ∧
    (jsTruthy c.textareaValue = false → jsTruthy c.embeddedValue = false →
      ∀ s, c.propsValue = some s → s ≠ "" → resolveValue c = s) ∧
    (jsTruthy c.textareaValue = false → jsTruthy c.embeddedValue = false →
      jsTruthy c.propsValue = false → resolveValue c = "") := by
  refine ⟨?_, ?_, ?_, ?_, ?_, ?_, ?_⟩
  · intro s hs hne
    rw [resolveLanguageId, hs, jsOrStr_truthy s hne]
  · intro hf s hs hne
    rw [resolveLanguageId, jsOrStr_falsy _ hf, hs, jsOrStr_truthy s hne]
  · intro hf hf2
    rw [resolveLanguageId, jsOrStr_falsy _ hf, jsOrStr_falsy _ hf2]
  · intro s hs hne
    rw [resolveValue, hs, jsOrStr_truthy s hne]
  · intro hf s hs hne
    rw [resolveValue, jsOrStr_falsy _ hf, hs, jsOrStr_truthy s hne]
  · intro hf hf2 s hs hne
    rw [resolveValue, jsOrStr_falsy _ hf, jsOrStr_falsy _ hf2, hs, jsOrStr_truthy s hne]
  · intro hf hf2 hf3
    rw [resolveValue, jsOrStr_falsy _ hf, jsOrStr_falsy _ hf2, jsOrStr_falsy _ hf3]

/-- Claim C10, witness: the mermaid block resolves its language from the
embedded state and its content from the textarea. -/
theorem input_resolution_precedence_witness :
    resolveLanguageId cNonEmpty = "mermaid" ∧ resolveValue cNonEmpty = "graph TD" :=
  ⟨(input_resolution_precedence cNonEmpty).1 "mermaid" rfl (by decide),
   (input_resolution_precedence cNonEmpty).2.2.2.1 "graph TD" rfl (by decide)⟩

end MermaidDiagram
